import Mathlib

/-!
Shallow embedding of the Orion ledger extraction and normalization pipeline
(backend of the `orion` repository) together with theorems checking the
natural-language specification against the code.

The embedded modules are:
* `backend/database.py` -- `_to_float_safe`, `_map_movement_type`,
  `_map_main_group`, `_parse_localized_number` and the candidate-entry loop of
  `create_analysis_and_entries` (the Entry Reconciler and Analysis Upsert
  Manager);
* `backend/data_validator.py` -- `_clean_numeric_string`;
* `backend/python_parser.py` -- `_limpar_valor`;
* `backend/parser_test.py` -- `parse_value` and the per-line logic of
  `parse_balancete_for_db` (the Line Pattern Extractor);
* `backend/business_rules.py` -- `_process_single_account` and helpers;
* `backend/services/ai_service.py` -- `_normalize_movement_type`;
* `backend/routers/monthly_analyses.py` -- the `process_file` endpoint,
  modelled as a transition on an abstract database state.

Python floats are modelled as rationals, Python strings as Lean strings and
dictionaries as structures with `Option` fields (`none` = key absent).
-/

attribute [local semireducible] Rat.add Rat.sub Rat.mul Rat.inv Rat.ofScientific

namespace Orion

/-- Whitespace characters removed by Python's `str.strip` and matched by
the regex class backslash-s. -/
def pySpace (c : Char) : Bool :=
  c == ' ' || c == '\t' || c == '\n' || c == '\x0d' || c == '\x0b' || c == '\x0c'

/-- Python `str.strip` on a character list. -/
def stripList (l : List Char) : List Char :=
  ((l.dropWhile pySpace).reverse.dropWhile pySpace).reverse

/-- Python `str.strip`. -/
def pyStrip (s : String) : String := ⟨stripList s.toList⟩

/-- Uppercase/lowercase pairs of the accented letters that occur in the
repository's Portuguese vocabulary, extending ASCII case conversion. -/
def accentPairs : List (Char × Char) :=
  [('Á', 'á'), ('Â', 'â'), ('Ã', 'ã'), ('À', 'à'), ('Ç', 'ç'),
   ('É', 'é'), ('Ê', 'ê'), ('Í', 'í'), ('Ó', 'ó'), ('Ô', 'ô'),
   ('Õ', 'õ'), ('Ú', 'ú'), ('Ü', 'ü')]

/-- Python `str.lower` on one character (ASCII plus the accented letters
used by the code base). -/
def pyLowerChar (c : Char) : Char :=
  match accentPairs.find? (fun p => p.1 == c) with
  | some p => p.2
  | none => c.toLower

/-- Python `str.upper` on one character. -/
def pyUpperChar (c : Char) : Char :=
  match accentPairs.find? (fun p => p.2 == c) with
  | some p => p.1
  | none => c.toUpper

/-- Python `str.lower`. -/
def pyLower (s : String) : String := ⟨s.toList.map pyLowerChar⟩

/-- Python `str.upper`. -/
def pyUpper (s : String) : String := ⟨s.toList.map pyUpperChar⟩

/-- A cased character that is lowercase. -/
def pyCasedLower (c : Char) : Bool :=
  (c.isAlpha && c.isLower) || accentPairs.any (fun p => p.2 == c)

/-- A cased character. -/
def pyCased (c : Char) : Bool :=
  c.isAlpha || accentPairs.any (fun p => p.1 == c || p.2 == c)

/-- Python `str.isupper`: at least one cased character and no lowercase
cased character. -/
def pyIsUpper (s : String) : Bool :=
  s.toList.any pyCased && s.toList.all (fun c => !(pyCasedLower c))

/-- `needle` occurs as a contiguous sublist of `hay` (Python's `in` on
strings). -/
def isSubList (needle : List Char) : List Char → Bool
  | [] => needle.isEmpty
  | c :: t => needle.isPrefixOf (c :: t) || isSubList needle t

/-- Python `needle in hay` for strings. -/
def containsStr (hay needle : String) : Bool :=
  isSubList needle.toList hay.toList

/-- Python `s.startswith(pre)` (kernel-reducible form of `startsWith`). -/
def startsWithStr (s pre : String) : Bool :=
  pre.toList.isPrefixOf s.toList

/-- Numeric value of a digit character. -/
def digitVal (c : Char) : Nat := c.toNat - '0'.toNat

/-- Value of a digit string read in base 10. -/
def digitsVal (l : List Char) : ℚ :=
  ((l.foldl (fun acc c => 10 * acc + digitVal c) 0 : Nat) : ℚ)

/-- Value of a digit string read as a fractional part. -/
def fracVal (l : List Char) : ℚ := digitsVal l / ((10 : ℚ) ^ l.length)

/-- Split a maximal leading run of digits off a character list. -/
def takeDigits : List Char → List Char × List Char
  | [] => ([], [])
  | c :: cs =>
    if c.isDigit then
      let p := takeDigits cs
      (c :: p.1, p.2)
    else ([], c :: cs)

/-- Parse an unsigned decimal numeral `digits [. digits]` covering the whole
input, requiring at least one digit (Python accepts `.5` and `5.`). -/
def parseDec (l : List Char) : Option ℚ :=
  let p := takeDigits l
  match p.2 with
  | [] => if p.1.isEmpty then none else some (digitsVal p.1)
  | '.' :: r2 =>
    let q := takeDigits r2
    if q.2.isEmpty && !(p.1.isEmpty && q.1.isEmpty) then
      some (digitsVal p.1 + fracVal q.1)
    else none
  | _ => none

/-- Parse an optionally signed decimal numeral covering the whole input. -/
def parseSignedDec : List Char → Option ℚ
  | '-' :: rest => (parseDec rest).map (fun q => -q)
  | '+' :: rest => parseDec rest
  | l => parseDec l

/-- Python `float(s)` on a string (restricted to plain decimal numerals,
which is the shape the pipeline feeds it): surrounding whitespace is
ignored, failure is `none` (a `ValueError` at call sites). -/
def pyFloat (s : String) : Option ℚ :=
  parseSignedDec (stripList s.toList)

/-- Python `Decimal(s)` on a cleaned numeric string: the accepted grammar
coincides with `pyFloat` on the inputs produced by the validator. -/
def pyDecimal (s : String) : Option ℚ :=
  parseSignedDec (stripList s.toList)

/-- A Python value fed to a numeric normalizer: `None`, a number, or a
string. -/
inductive PyVal where
  | null : PyVal
  | num : ℚ → PyVal
  | str : String → PyVal
deriving DecidableEq

/-- Python truthiness of a `PyVal` (`None`, `0` and the empty string are
falsy). -/
def pyTruthy : PyVal → Bool
  | .null => false
  | .num q => q ≠ 0
  | .str s => s ≠ ""

/-- Greedy leftmost match of the regex `-?` digits (`.` digits)? used by
`_to_float_safe` (`re.search` in `backend/database.py`), returning the
matched value. -/
def findNumMatch : List Char → Option ℚ
  | [] => none
  | c :: rest =>
    if c.isDigit then
      some (matchFrom (c :: rest))
    else if c == '-' then
      match rest with
      | [] => none
      | d :: _ => if d.isDigit then some (-(matchFrom rest)) else findNumMatch rest
    else findNumMatch rest
where
  /-- Value of the greedy match starting at a digit. -/
  matchFrom (l : List Char) : ℚ :=
    let p := takeDigits l
    match p.2 with
    | '.' :: r2 =>
      let q := takeDigits r2
      if q.1.isEmpty then digitsVal p.1 else digitsVal p.1 + fracVal q.1
    | _ => digitsVal p.1

/-- `_to_float_safe` from `backend/database.py`: strip, delete letters and
whitespace, delete dots (thousands separators), turn the comma into a dot,
then take the first regex match `-?` digits (`.` digits)?; `0` when nothing
matches or the input is `None`. -/
def toFloatSafe : PyVal → ℚ
  | .null => 0
  | .num q => q
  | .str v =>
    let s1 := (stripList v.toList).filter (fun c => !(c.isAlpha || pySpace c))
    let s2 := (s1.filter (fun c => c != '.')).map (fun c => if c == ',' then '.' else c)
    match findNumMatch s2 with
    | none => 0
    | some q => q

/-- `_clean_numeric_string` from `backend/data_validator.py`: strip, drop
parentheses, disambiguate the decimal separator (when both `.` and `,`
occur the one occurring last wins; when only `,` occurs it is decimal
exactly when the split yields two parts and the second has length two),
then keep only digits, `.` and `-`. -/
def cleanNumericString (value : String) : String :=
  let cleaned := stripList value.toList
  let cleaned := cleaned.filter (fun c => c != '(' && c != ')')
  let cleaned :=
    if cleaned.contains ',' && cleaned.contains '.' then
      -- rfind ',' > rfind '.': scanning from the right, ',' occurs first
      if (cleaned.reverse.find? (fun c => c == ',' || c == '.')) = some ',' then
        (cleaned.filter (fun c => c != '.')).map (fun c => if c == ',' then '.' else c)
      else
        cleaned.filter (fun c => c != ',')
    else if cleaned.contains ',' then
      let parts := cleaned.splitOn ','
      if parts.length = 2 && (parts.getD 1 []).length = 2 then
        cleaned.map (fun c => if c == ',' then '.' else c)
      else
        cleaned.filter (fun c => c != ',')
    else cleaned
  ⟨cleaned.filter (fun c => c.isDigit || c == '.' || c == '-')⟩

/-- Exceptions that the embedded Python functions can raise. -/
inductive PyExc where
  | valueError : PyExc
  | attributeError : PyExc
deriving DecidableEq

instance {ε α : Type} [DecidableEq ε] [DecidableEq α] : DecidableEq (Except ε α)
  | .ok x, .ok y =>
    if h : x = y then .isTrue (by rw [h]) else .isFalse (by intro hc; cases hc; exact h rfl)
  | .ok _, .error _ => .isFalse (by intro hc; cases hc)
  | .error _, .ok _ => .isFalse (by intro hc; cases hc)
  | .error e, .error f =>
    if h : e = f then .isTrue (by rw [h]) else .isFalse (by intro hc; cases hc; exact h rfl)

/-- `_limpar_valor` from `backend/python_parser.py`: strip, uppercase,
delete `D`, `C` and `.`, turn `,` into `.`, then `float`; `ValueError` and
`TypeError` are caught and give `0.0`, but `None` hits `.strip()` first and
raises `AttributeError`, which is not caught. -/
def limparValor : Option String → Except PyExc ℚ
  | none => .error .attributeError
  | some s =>
    let t := (stripList s.toList).map pyUpperChar
    let t := t.filter (fun c => c != 'D' && c != 'C' && c != '.')
    let t := t.map (fun c => if c == ',' then '.' else c)
    match pyFloat ⟨t⟩ with
    | some q => .ok q
    | none => .ok 0

/-- `parse_value` from `backend/parser_test.py`: empty or `None` gives `0`;
otherwise delete `D`, `C` and whitespace, split on the comma when present
(integer part loses its dots, decimal part is the second piece) and call
`float`, whose `ValueError` is not caught. -/
def parseValue : Option String → Except PyExc ℚ
  | none => .ok 0
  | some s =>
    if s = "" then .ok 0
    else
      let cleaned := s.toList.filter (fun c => !(c == 'D' || c == 'C' || pySpace c))
      if cleaned.contains ',' then
        let parts := cleaned.splitOn ','
        let integerPart := (parts.headD []).filter (fun c => c != '.')
        let decimalPart := if parts.length > 1 then parts.getD 1 [] else ['0', '0']
        match pyFloat ⟨integerPart ++ '.' :: decimalPart⟩ with
        | some q => .ok q
        | none => .error .valueError
      else
        match pyFloat ⟨cleaned.filter (fun c => c != '.')⟩ with
        | some q => .ok q
        | none => .error .valueError

/-- First maximal run of characters from the class `[-` digits `.]` (the
`re.search` in `_parse_localized_number`). -/
def firstRunValueChars : List Char → Option (List Char)
  | [] => none
  | c :: t =>
    if c.isDigit || c == '-' || c == '.' then
      some ((c :: t).takeWhile (fun d => d.isDigit || d == '-' || d == '.'))
    else firstRunValueChars t

/-- `_parse_localized_number` from the recovery step of
`create_analysis_and_entries` in `backend/database.py`: numbers pass
through, strings first go through `float` directly, then through the
localized cleanup (strip, uppercase, delete `C`, `D`, `.` and spaces, turn
`,` into `.`) and a first-run regex match; every failure gives `0`. -/
def parseLocalizedNumber : PyVal → ℚ
  | .null => 0
  | .num q => q
  | .str v =>
    match pyFloat v with
    | some q => q
    | none =>
      let s := (stripList v.toList).map pyUpperChar
      let s := s.filter (fun c => c != 'C' && c != 'D')
      let s := (s.filter (fun c => c != '.' && c != ' ')).map
        (fun c => if c == ',' then '.' else c)
      match firstRunValueChars s with
      | none => 0
      | some run =>
        match pyFloat ⟨run⟩ with
        | some q => q
        | none => 0

/-- `_map_movement_type` from `create_analysis_and_entries` in
`backend/database.py`: falsy input and every unrecognized string map to
`Despesa`. -/
def mapMovementType : Option String → String
  | none => "Despesa"
  | some raw =>
    if raw = "" then "Despesa"
    else
      let r := pyLower (pyStrip raw)
      if containsStr r "receit" = true ∨ r = "r" then "Receita"
      else if containsStr r "custo" then "Custo"
      else if containsStr r "deduc" = true ∨ containsStr r "dedução" = true then "Dedução"
      else "Despesa"

/-- `_map_main_group` from `create_analysis_and_entries` in
`backend/database.py`. -/
def mapMainGroup (raw : Option String) (inferredMovement : String) : String :=
  let fallback :=
    if inferredMovement ≠ "" ∧ startsWithStr (pyLower inferredMovement) "r" = true then "RECEITAS"
    else "CUSTOS E DESPESAS"
  match raw with
  | none => fallback
  | some s =>
    if s = "" then fallback
    else
      let r := pyUpper s
      if containsStr r "RECEITA" then "RECEITAS"
      else if containsStr r "DEDU" then "DEDUÇÕES DA RECEITA"
      else if containsStr r "CUSTO" && !(containsStr r "DESP") then "CUSTOS"
      else if containsStr r "DESP" then "DESPESAS"
      else if containsStr r "CUSTOS E DESPESAS" then "CUSTOS E DESPESAS"
      else fallback

/-- The `original_data` side-channel dictionary inspected by the recovery
step (`none` field = key absent). -/
structure OriginalData where
  debito : Option PyVal := none
  debts : Option PyVal := none
  debit : Option PyVal := none
  credito : Option PyVal := none
  credit : Option PyVal := none
  credito_ou : Option PyVal := none
  valor : Option PyVal := none
  saldo_atual : Option PyVal := none
  saldo : Option PyVal := none
deriving DecidableEq

/-- Python `a or b or ...` over dictionary lookups: the first truthy value,
`None` when all are falsy (returning which falsy value Python keeps is
irrelevant, every falsy value parses to `0`). -/
def orChain : List (Option PyVal) → PyVal
  | [] => .null
  | x :: rest =>
    let v := x.getD .null
    if pyTruthy v then v else orChain rest

/-- The recovery step of `create_analysis_and_entries` for a candidate
whose computed `period_value` is zero: debit-side fields are preferred when
`movement_type.lower().startswith('d')`, credit-side fields otherwise, with
`valor`/`saldo_atual`/`saldo` as second attempt; `0` when `original_data`
is absent or falsy. -/
def recoverValue (movementType : String) (od : Option OriginalData) : ℚ :=
  match od with
  | none => 0
  | some o =>
    if movementType ≠ "" ∧ startsWithStr (pyLower movementType) "d" = true then
      let r := parseLocalizedNumber (orChain [o.debito, o.debts, o.debit])
      if r = 0 then parseLocalizedNumber (orChain [o.valor, o.saldo_atual, o.saldo]) else r
    else
      let r := parseLocalizedNumber (orChain [o.credito, o.credit, o.credito_ou])
      if r = 0 then parseLocalizedNumber (orChain [o.valor, o.saldo_atual, o.saldo]) else r

/-- A candidate entry dictionary consumed by the loop of
`create_analysis_and_entries` (`none` field = key absent). -/
structure Conta where
  movement_type : Option String := none
  tipo : Option String := none
  movimento : Option String := none
  specific_account : Option String := none
  conta_especifica : Option String := none
  conta : Option String := none
  descricao : Option String := none
  period_value : Option PyVal := none
  valor : Option PyVal := none
  valor_debito : Option PyVal := none
  valor_credito : Option PyVal := none
  original_data : Option OriginalData := none
  main_group : Option String := none
  grupo_principal : Option String := none
  subgroup_1 : Option String := none
deriving DecidableEq

/-- Python `a or b or ...` over string lookups: first truthy string,
`none` when all values are absent or falsy. -/
def firstTruthyStr : List (Option String) → Option String
  | [] => none
  | x :: rest =>
    match x with
    | some s => if s ≠ "" then some s else firstTruthyStr rest
    | none => firstTruthyStr rest

/-- `conta.get('movement_type') or conta.get('tipo') or
conta.get('movimento')`. -/
def movementRaw (c : Conta) : Option String :=
  firstTruthyStr [c.movement_type, c.tipo, c.movimento]

/-- `conta.get('specific_account') or conta.get('conta_especifica') or
conta.get('conta') or conta.get('descricao') or ''`. -/
def resolveSpecificAccount (c : Conta) : String :=
  (firstTruthyStr [c.specific_account, c.conta_especifica, c.conta, c.descricao]).getD ""

/-- The `period_value` determination of `create_analysis_and_entries`:
prefer the `period_value` key, then `valor`, then the debit/credit pair
(debit when strictly positive, credit otherwise). -/
def computePeriodValue (c : Conta) : ℚ :=
  match c.period_value with
  | some v => toFloatSafe v
  | none =>
    match c.valor with
    | some v => toFloatSafe v
    | none =>
      let valorDebito := toFloatSafe (c.valor_debito.getD (.num 0))
      let valorCredito := toFloatSafe (c.valor_credito.getD (.num 0))
      if valorDebito > 0 then valorDebito else valorCredito

/-- `conta.get('original_data') or conta`: the payload stored on the
persisted row. -/
inductive OriginalPayload where
  | fromOriginal : OriginalData → OriginalPayload
  | fromConta : Conta → OriginalPayload
deriving DecidableEq

/-- A row of the `financial_entries` table as built by
`create_analysis_and_entries`. -/
structure Entry where
  analysis_id : String
  client_id : String
  report_date : String
  main_group : String
  subgroup_1 : Option String
  specific_account : String
  movement_type : String
  period_value : ℚ
  original_data : OriginalPayload
deriving DecidableEq

/-- The dictionary appended to `entries_to_insert` for a surviving
candidate. -/
def mkEntry (aid cid rdate : String) (c : Conta) (movementType : String) (pv : ℚ) : Entry :=
  { analysis_id := aid, client_id := cid, report_date := rdate,
    main_group := mapMainGroup (firstTruthyStr [c.main_group, c.grupo_principal]) movementType,
    subgroup_1 := c.subgroup_1,
    specific_account := resolveSpecificAccount c,
    movement_type := movementType,
    period_value := pv,
    original_data := match c.original_data with
      | some o => .fromOriginal o
      | none => .fromConta c }

/-- One iteration of the candidate loop of `create_analysis_and_entries`
(the Entry Reconciler): `none` means the candidate is skipped (`continue`),
which happens exactly when the computed `period_value` is zero and the
recovery step does not produce a strictly positive number. -/
def reconcileEntry (aid cid rdate : String) (c : Conta) : Option Entry :=
  let movementType := mapMovementType (movementRaw c)
  let pv := computePeriodValue c
  if pv = 0 then
    let recovered := recoverValue movementType c.original_data
    if 0 < recovered then some (mkEntry aid cid rdate c movementType recovered)
    else none
  else some (mkEntry aid cid rdate c movementType pv)

/-- The full `entries_to_insert` list built by
`create_analysis_and_entries`. -/
def entriesToInsert (aid cid rdate : String) (contas : List Conta) : List Entry :=
  contas.filterMap (reconcileEntry aid cid rdate)

/-- The `resumo_periodo` summary dictionary (`none` field = key absent). -/
structure Summary where
  total_receitas : Option PyVal := none
  total_despesas_custos : Option PyVal := none
  lucro : Option PyVal := none
deriving DecidableEq

/-- The legacy `resumo_balancete` dictionary shape. -/
structure ResumoBalancete where
  ativo : Option PyVal := none
  passivo : Option PyVal := none
  despesa : Option PyVal := none
  receita : Option PyVal := none
deriving DecidableEq

/-- The legacy `valores_periodo` dictionary shape. -/
structure ValoresPeriodo where
  receita : Option PyVal := none
  despesa_custo : Option PyVal := none
  despesa : Option PyVal := none
  lucro : Option PyVal := none
deriving DecidableEq

/-- The `analysis_data` dictionary passed to
`create_analysis_and_entries`; `resumo_periodo = none` models an absent or
empty (falsy) summary. -/
structure AnalysisData where
  resumo_periodo : Option Summary := none
  resumo_balancete : Option ResumoBalancete := none
  valores_periodo : Option ValoresPeriodo := none
  financial_entries : List Conta := []
deriving DecidableEq

/-- The summary-normalization block at the top of
`create_analysis_and_entries`: fall back from `resumo_periodo` to
`valores_periodo` and then `resumo_balancete`. -/
def resolveSummary (d : AnalysisData) : Summary :=
  match d.resumo_periodo with
  | some s => s
  | none =>
    match d.resumo_balancete, d.valores_periodo with
    | none, none => {}
    | rb, vp =>
      let s : Summary :=
        match vp with
        | none => {}
        | some v =>
          { total_receitas := v.receita,
            total_despesas_custos :=
              match v.despesa_custo with
              | some x => some x
              | none => v.despesa,
            lucro := v.lucro }
      match rb with
      | none => s
      | some r =>
        { s with
          total_receitas :=
            match s.total_receitas with
            | some x => some x
            | none => r.receita,
          total_despesas_custos :=
            match s.total_despesas_custos with
            | some x => some x
            | none => r.despesa }

/-- Observable outcome of one `create_analysis_and_entries` run on the
stored analysis row and its child entries, with persistence calls modelled
as succeeding. `total_receitas = none` means the run did not write that
column (the parser provided no total). -/
structure CreateResult where
  status : String
  total_receitas : Option ℚ
  total_despesas : Option ℚ
  entries : List Entry
deriving DecidableEq

/-- `create_analysis_and_entries` from `backend/database.py`: the analysis
row is upserted with `status = completed`; totals are included exactly when
the resolved summary provides them, parsed by `_to_float_safe`, and
re-applied unchanged after the entries are inserted; old child entries are
deleted and replaced by `entries_to_insert`. -/
def createAnalysisAndEntries (aid cid rdate : String) (d : AnalysisData) : CreateResult :=
  let summary := resolveSummary d
  { status := "completed",
    total_receitas := summary.total_receitas.map toFloatSafe,
    total_despesas := summary.total_despesas_custos.map toFloatSafe,
    entries := entriesToInsert aid cid rdate d.financial_entries }

/-- The columns of a `monthly_analyses` row touched by
`create_analysis_and_entries`. -/
structure AnalysisRow where
  status : String
  total_receitas : Option ℚ
  total_despesas : Option ℚ
deriving DecidableEq

/-- Database state seen by `create_analysis_and_entries` for one
(client_id, reference_year, reference_month) key: the analysis row stored
under that key, if any, and its child `financial_entries` rows. -/
structure LegacyState where
  analysis : Option AnalysisRow
  entries : List Entry
deriving DecidableEq

/-- `create_analysis_and_entries` as a transition on the state of its
(client_id, reference_year, reference_month) key, following
`backend/database.py`: the payload (status `completed`, totals only when
the parser provided them) is UPSERTED with
`on_conflict="client_id,reference_year,reference_month"`, so an existing
row -- completed or not -- is updated in place (columns missing from the
payload keep their old values); then the old child entries are deleted
(line 190) and replaced by `entries_to_insert`. The function takes no
overwrite flag and has no duplicate-rejection outcome. -/
def createAnalysisAndEntriesUpsert (aid cid rdate : String) (d : AnalysisData)
    (prior : LegacyState) : LegacyState :=
  let summary := resolveSummary d
  let tr := summary.total_receitas.map toFloatSafe
  let td := summary.total_despesas_custos.map toFloatSafe
  let row : AnalysisRow :=
    match prior.analysis with
    | none => { status := "completed", total_receitas := tr, total_despesas := td }
    | some old =>
      { status := "completed"
        total_receitas :=
          match tr with
          | some q => some q
          | none => old.total_receitas
        total_despesas :=
          match td with
          | some q => some q
          | none => old.total_despesas }
  { analysis := some row, entries := entriesToInsert aid cid rdate d.financial_entries }

/-- Sum of `period_value` over the entries with the given `movement_type`
(the Python generator-expression sums). -/
def sumByMovement (mt : String) (es : List Entry) : ℚ :=
  (es.filter (fun e => e.movement_type == mt)).foldl (fun acc e => acc + e.period_value) 0

/-- Python `str.capitalize`. -/
def pyCapitalize (s : String) : String :=
  match s.toList with
  | [] => ""
  | c :: t => ⟨pyUpperChar c :: t.map pyLowerChar⟩

/-- `_normalize_movement_type` from `backend/services/ai_service.py`:
first the AI-provided transformation table, then keyword fallbacks, with
`Despesa` as the final default. -/
def aiNormalizeMovementType (value : String) (transformations : List (String × List String)) :
    String :=
  let valueLower := pyStrip (pyLower value)
  match transformations.find? (fun p => p.2.any (fun v => containsStr valueLower v)) with
  | some p => pyCapitalize p.1
  | none =>
    if ["receita", "entrada", "credit", "recebimento"].any (fun w => containsStr valueLower w) then
      "Receita"
    else if ["despesa", "saida", "debit", "pagamento"].any (fun w => containsStr valueLower w) then
      "Despesa"
    else "Despesa"

/-- `movement_type_mapping` of `BusinessRuleEngine` in
`backend/business_rules.py`. -/
def movementTypeMapping (g : String) : Option String :=
  if g = "RECEITAS" then some "Receita"
  else if g = "CUSTOS E DESPESAS" then some "Despesa"
  else none

/-- `_apply_movement_rules` from `backend/business_rules.py`: rule table
plus larger-value fallback, absolute value forced at the end. -/
def applyMovementRules (grupoPrincipal : String) (valorDebito valorCredito : ℚ) : String × ℚ :=
  match movementTypeMapping grupoPrincipal with
  | none =>
    if valorCredito > valorDebito then ("Receita", |valorCredito|)
    else ("Despesa", |valorDebito|)
  | some mt =>
    if mt = "Receita" then (mt, |valorCredito|) else (mt, |valorDebito|)

/-- `_convert_to_decimal` from `backend/business_rules.py`. -/
def convertToDecimal : PyVal → ℚ
  | .null => 0
  | .num q => q
  | .str s =>
    let cleaned := (stripList s.toList).map (fun c => if c == ',' then '.' else c)
    let cleaned := cleaned.filter (fun c => c.isDigit || c == '.' || c == '-')
    if cleaned.isEmpty then 0
    else
      match pyDecimal ⟨cleaned⟩ with
      | some q => q
      | none => 0

/-- An alphabetic character in the embedded alphabet. -/
def pyIsAlphaCh (c : Char) : Bool :=
  c.isAlpha || accentPairs.any (fun p => p.1 == c || p.2 == c)

/-- Worker for Python `str.title`: `prev` records whether the previous
character was alphabetic. -/
def titleGo : Bool → List Char → List Char
  | _, [] => []
  | prev, c :: t =>
    if pyIsAlphaCh c then
      (if prev then pyLowerChar c else pyUpperChar c) :: titleGo true t
    else c :: titleGo false t

/-- Python `str.title`. -/
def pyTitle (s : String) : String := ⟨titleGo false s.toList⟩

/-- `known_subgroups` of `BusinessRuleEngine`. -/
def knownSubgroups (grupo : String) : List String :=
  if grupo = "RECEITAS" then
    ["RECEITA DE VENDAS", "RECEITA DE SERVIÇOS", "OUTRAS RECEITAS",
     "RECEITAS OPERACIONAIS", "RECEITAS NÃO OPERACIONAIS"]
  else if grupo = "CUSTOS E DESPESAS" then
    ["CUSTO DOS PRODUTOS VENDIDOS", "CUSTO DOS SERVIÇOS PRESTADOS",
     "DESPESAS OPERACIONAIS", "DESPESAS ADMINISTRATIVAS", "DESPESAS COMERCIAIS",
     "DESPESAS FINANCEIRAS", "OUTRAS DESPESAS"]
  else []

/-- `_normalize_subgroup` from `backend/business_rules.py`: substring match
in either direction against the curated catalogue, title-cased fallback. -/
def normalizeSubgroup (grupoPrincipal : String) (subgrupoRaw : Option String) : Option String :=
  match subgrupoRaw with
  | none => none
  | some raw =>
    if raw = "" then none
    else
      let subClean := pyUpper (pyStrip raw)
      match (knownSubgroups grupoPrincipal).find?
          (fun known => containsStr subClean (pyUpper known) || containsStr (pyUpper known) subClean) with
      | some known => some known
      | none => some (pyTitle subClean)

/-- A validated account dictionary consumed by
`BusinessRuleEngine._process_single_account`. -/
structure ContaBR where
  grupo_principal : Option String := none
  subgrupo_1 : Option String := none
  conta_especifica : Option String := none
  valor_debito : Option PyVal := none
  valor_credito : Option PyVal := none
deriving DecidableEq

/-- The financial entry produced by `_process_single_account` (the
generated id and timestamps are outside the model; `original_data` keeps
the converted debit/credit pair). -/
structure BREntry where
  client_id : String
  report_date : String
  main_group : String
  subgroup_1 : Option String
  specific_account : String
  movement_type : String
  period_value : ℚ
  valor_debito : ℚ
  valor_credito : ℚ
deriving DecidableEq

/-- `_process_single_account` from `backend/business_rules.py`: returns
`none` (account skipped) exactly when the computed `period_value` is not
strictly positive; the date conversion is modelled as passing
`reportDate` through. -/
def processSingleAccount (clientId reportDate : String) (c : ContaBR) : Option BREntry :=
  let grupoPrincipal := pyUpper (pyStrip (c.grupo_principal.getD ""))
  let subgrupo : Option String :=
    match c.subgrupo_1 with
    | some s => if s ≠ "" then some (pyStrip s) else none
    | none => none
  let contaEspecifica := pyStrip (c.conta_especifica.getD "")
  let valorDebito := convertToDecimal (c.valor_debito.getD (.num 0))
  let valorCredito := convertToDecimal (c.valor_credito.getD (.num 0))
  let mp := applyMovementRules grupoPrincipal valorDebito valorCredito
  if mp.2 ≤ 0 then none
  else some {
    client_id := clientId, report_date := reportDate,
    main_group := grupoPrincipal,
    subgroup_1 := normalizeSubgroup grupoPrincipal subgrupo,
    specific_account := contaEspecifica,
    movement_type := mp.1, period_value := mp.2,
    valor_debito := valorDebito, valor_credito := valorCredito }

/-- The capture groups of one line matched by `conta_pattern` in
`parse_balancete_for_db` (`backend/parser_test.py`): description, numeric
account code and the four monetary columns. -/
structure MatchedLine where
  descricao : String
  codigo : String
  saldo_anterior : String
  debito : String
  credito : String
  saldo_atual : String
deriving DecidableEq

/-- The entry dictionary appended to `financial_entries` by
`parse_balancete_for_db`; `original` keeps the raw capture groups. -/
structure FEntry where
  main_group : String
  subgroup_1 : Option String
  specific_account : String
  movement_type : String
  period_value : ℚ
  original : MatchedLine
deriving DecidableEq

/-- `codigo[0] if codigo else "0"`. -/
def primeiroDigito (codigo : String) : Char :=
  match codigo.toList with
  | [] => '0'
  | c :: _ => c

/-- The body of the per-line loop of `parse_balancete_for_db` for a line
matched by `conta_pattern`: filter to account codes starting with 4 or 5,
refine `Custo` vs `Despesa` for codes starting with 5, compute
`period_value`, update the tracked `current_subgroup` on fully-uppercase
short-code lines, and append the entry. The pair returned is the new
`current_subgroup` and the appended entry (if any); `parse_value` errors
propagate. -/
def processMatchedLine (currentSubgroup : Option String) (m : MatchedLine) :
    Except PyExc (Option String × Option FEntry) :=
  let descricao := pyStrip m.descricao
  let pd := primeiroDigito m.codigo
  if pd = '4' ∨ pd = '5' then
    let mtmg :=
      if pd = '5' then
        if ["CMV", "CUSTO", "MERCADORIA"].any (fun w => containsStr (pyUpper descricao) w) then
          ("Custo", "CUSTOS")
        else ("Despesa", "DESPESAS")
      else ("Receita", "RECEITAS")
    match parseValue (some m.debito) with
    | .error e => .error e
    | .ok debitoVal =>
      match parseValue (some m.credito) with
      | .error e => .error e
      | .ok creditoVal =>
        let periodValue := if pd = '4' then creditoVal - debitoVal else debitoVal - creditoVal
        let st :=
          if pyIsUpper descricao = true ∧ m.codigo.length ≤ 5 then (some descricao, (none : Option String))
          else (currentSubgroup, currentSubgroup)
        .ok (st.1, some {
          main_group := mtmg.2, subgroup_1 := st.2,
          specific_account := descricao, movement_type := mtmg.1,
          period_value := periodValue, original := m })
  else .ok (currentSubgroup, none)

/-- A `financial_entries` row on the AI-router path
(`backend/routers/monthly_analyses.py`). -/
structure PFEntry where
  specific_account : String
  account_description : String
  movement_type : String
  period_value : ℚ
  report_date : String
deriving DecidableEq

/-- The columns of the `monthly_analyses` row touched by `process_file`. -/
structure PFAnalysis where
  status : String
  total_receitas : ℚ
  total_despesas : ℚ
  total_entries : ℕ
deriving DecidableEq

/-- Database state seen by `process_file`: the analysis row addressed by
the request and its child `financial_entries` rows. -/
structure PFState where
  analysis : PFAnalysis
  entries : List PFEntry
deriving DecidableEq

/-- The failure outcomes of `process_file` that are modelled: the
duplicate-analysis rejection (HTTP 400, already processed) and the
no-financial-data rejection (HTTP 400). -/
inductive PFError where
  | duplicateAnalysis : PFError
  | noFinancialData : PFError
deriving DecidableEq

/-- Sum of `period_value` over the produced entries with the given
`movement_type`. -/
def sumPF (mt : String) (es : List PFEntry) : ℚ :=
  (es.filter (fun e => e.movement_type == mt)).foldl (fun acc e => acc + e.period_value) 0

/-- The `process_file` endpoint of `backend/routers/monthly_analyses.py`
as a transition on the database state: `produced` is the entry list
returned by `ai_service.process_financial_data`. An `HTTPException` rolls
the transaction back, so the state is returned unchanged together with the
error; on success the entries are inserted (the table is not cleared
first), the totals are recomputed from `produced` and the analysis is
marked completed. Per-row insert failures are modelled as not occurring. -/
def processFile (forceProcess : Bool) (produced : List PFEntry) (st : PFState) :
    PFState × Option PFError :=
  if forceProcess = false ∧ st.analysis.status = "completed" then
    (st, some .duplicateAnalysis)
  else if produced.isEmpty then
    (st, some .noFinancialData)
  else
    ({ analysis := {
         status := "completed",
         total_receitas := sumPF "Receita" produced,
         total_despesas := sumPF "Despesa" produced,
         total_entries := produced.length },
       entries := st.entries ++ produced }, none)

/-! ### Concrete inputs used by counterexamples and witnesses -/

/-- A candidate whose parser-provided `period_value` is negative. -/
def contaNeg : Conta :=
  { period_value := some (.str "-10")
    movement_type := some "receita"
    specific_account := some "Vendas Canceladas" }

/-- A zero-valued candidate with no recoverable `original_data` (example 6
of the specification). -/
def contaZero : Conta :=
  { valor_debito := some (.num 0)
    valor_credito := some (.num 0)
    movement_type := some "receita"
    specific_account := some "Conta Sem Movimento" }

/-- A validated account with no movement for the business-rule engine. -/
def contaBRZero : ContaBR :=
  { grupo_principal := some "RECEITAS"
    conta_especifica := some "Conta Sem Movimento"
    valor_debito := some (.num 0)
    valor_credito := some (.num 0) }

/-- A zero-valued `Custo` candidate whose `original_data` carries both a
debit-side and a credit-side amount. -/
def contaCusto : Conta :=
  { movement_type := some "custo"
    period_value := some (.str "0,00")
    specific_account := some "CMV Mercadorias"
    original_data := some { debito := some (.str "10,00"), credito := some (.str "5,00") } }

/-- A zero-valued `Despesa` candidate recoverable from the debit field. -/
def contaDespRec : Conta :=
  { movement_type := some "despesa"
    period_value := some (.str "0,00")
    specific_account := some "Aluguel"
    original_data := some { debito := some (.str "7,00") } }

/-- A candidate with a positive value but no account-name key at all. -/
def contaSemConta : Conta :=
  { period_value := some (.str "10,00")
    movement_type := some "receita" }

/-- A receita candidate worth 30 used by the totals counterexample. -/
def contaVenda30 : Conta :=
  { period_value := some (.str "30,00")
    movement_type := some "receita"
    specific_account := some "Venda A" }

/-- Parser output whose summary totals (100/50) disagree with the single
candidate entry worth 30. -/
def analysisDataC1 : AnalysisData :=
  { resumo_periodo := some
      { total_receitas := some (.str "100,00")
        total_despesas_custos := some (.str "50,00") }
    financial_entries := [contaVenda30] }

/-- A child entry already stored under the period key before a second
submission arrives. -/
def entryOld : Entry :=
  { analysis_id := "a1"
    client_id := "c1"
    report_date := "2024-05-31"
    main_group := "RECEITAS"
    subgroup_1 := none
    specific_account := "Venda Antiga"
    movement_type := "Receita"
    period_value := 40
    original_data := .fromConta contaVenda30 }

/-- A period key already holding a completed analysis with one child
entry worth 40. -/
def legacyStateCompleted : LegacyState :=
  { analysis := some { status := "completed", total_receitas := some 40, total_despesas := some 0 }
    entries := [entryOld] }

/-- The second submission for that period: one candidate worth 30 and no
summary totals. -/
def analysisDataC3 : AnalysisData :=
  { financial_entries := [contaVenda30] }

/-- A fully-uppercase short-code line: a group heading in the sense of the
specification. -/
def headingLine : MatchedLine :=
  { descricao := "RECEITAS OPERACIONAIS"
    codigo := "41"
    saldo_anterior := "0,00"
    debito := "0,00"
    credito := "100,00"
    saldo_atual := "100,00" }

/-- A leaf revenue line whose debit exceeds its credit, so its
`period_value` is negative. -/
def leafNegLine : MatchedLine :=
  { descricao := "Devolucao de Vendas"
    codigo := "4102"
    saldo_anterior := "0,00"
    debito := "100,00"
    credito := "50,00"
    saldo_atual := "50,00" }

/-- The entry produced by the AI path for the witnesses of the router
theorems. -/
def pfEntry10 : PFEntry :=
  { specific_account := "Venda A"
    account_description := "venda"
    movement_type := "Receita"
    period_value := 10
    report_date := "2024-05-31" }

/-- A database state holding one completed analysis with one entry. -/
def pfStateCompleted : PFState :=
  { analysis := { status := "completed", total_receitas := 10, total_despesas := 0, total_entries := 1 }
    entries := [pfEntry10] }

/-- A database state holding one fresh (pending) analysis and no entries. -/
def pfStateFresh : PFState :=
  { analysis := { status := "pending", total_receitas := 0, total_despesas := 0, total_entries := 0 }
    entries := [] }

/-- The entry part of an `Except` result of `processMatchedLine`. -/
def emittedEntry (r : Except PyExc (Option String × Option FEntry)) : Option FEntry :=
  match r with
  | .ok p => p.2
  | .error _ => none

/-- The subgroup state after an `Except` result of `processMatchedLine`. -/
def subgroupAfter (r : Except PyExc (Option String × Option FEntry)) : Option (Option String) :=
  match r with
  | .ok p => some p.1
  | .error _ => none

/-! ### Theorems -/

/-- C4 (code bug): on the dual-separator tokens quoted by the claim the
cleaner behaves as specified, but for a comma-only token the code compares
`len(parts[1])` with 2, counting every character after the comma instead of
checking for two digits as the claim (and the code's own comment, "2
dígitos após vírgula") require; so `"123,45C"`, where two digits are
followed by the suffix `C`, is treated as thousands-separated and cleans to
`"12345"` (value 12345) instead of `123.45`. -/
theorem cleanNumericString_comma_rule_eval :
    cleanNumericString "1.234,56C" = "1234.56" ∧
    cleanNumericString "1,234.56" = "1234.56" ∧
    cleanNumericString "(123,45)" = "123.45" ∧
    cleanNumericString "123,45C" = "12345" ∧
    pyDecimal (cleanNumericString "123,45C") = some 12345 ∧
    pyDecimal (cleanNumericString "123,45C") ≠ some (123.45 : ℚ) := by
  decide

/-- C5 (code bug): currency normalization is not total. `_limpar_valor`
catches only `ValueError` and `TypeError`, so `None` hits `.strip()` first
and raises an uncaught `AttributeError`; `parse_value` catches nothing, so
arbitrary text raises `ValueError`. Only string inputs to `_limpar_valor`
(including the empty string and unparseable text) recover to `0`. -/
theorem normalizer_raise_eval :
    limparValor none = Except.error PyExc.attributeError ∧
    parseValue (some "abc") = Except.error PyExc.valueError ∧
    limparValor (some "") = Except.ok 0 ∧
    limparValor (some "texto") = Except.ok 0 ∧
    parseValue none = Except.ok 0 := by
  decide

/-- C1 (counterexample): `create_analysis_and_entries` marks the analysis
`completed` while storing the parser-provided total (100, re-applied after
the entries are inserted) even though the sum of `period_value` over the
inserted Receita entries is 30. -/
theorem createAnalysis_totals_override_counterexample :
    (createAnalysisAndEntries "a1" "c1" "2024-05-31" analysisDataC1).status = "completed" ∧
    (createAnalysisAndEntries "a1" "c1" "2024-05-31" analysisDataC1).total_receitas = some 100 ∧
    sumByMovement "Receita" (createAnalysisAndEntries "a1" "c1" "2024-05-31" analysisDataC1).entries = 30 ∧
    (createAnalysisAndEntries "a1" "c1" "2024-05-31" analysisDataC1).total_receitas ≠
      some (sumByMovement "Receita"
        (createAnalysisAndEntries "a1" "c1" "2024-05-31" analysisDataC1).entries) := by
  decide

/-- C2 (counterexample): a candidate whose parser-provided `period_value`
is `-10` passes the reconciler (only exact zero triggers recovery or a
drop) and is handed to persistence with a non-positive `period_value`. -/
theorem reconciler_negative_value_counterexample :
    (reconcileEntry "a1" "c1" "2024-05-31" contaNeg).map (fun e => e.period_value) = some (-10) ∧
    ¬ (0 : ℚ) < -10 := by
  decide

/-- C7 (counterexample): a fully-uppercase line with the short code `41`
updates the tracked subgroup, but `parse_balancete_for_db` still appends it
to `financial_entries` as an entry of its own (with `subgroup_1 = None`),
contradicting the claim that heading lines are not emitted. -/
theorem heading_emitted_counterexample :
    processMatchedLine none headingLine =
      Except.ok (some "RECEITAS OPERACIONAIS", some
        { main_group := "RECEITAS"
          subgroup_1 := none
          specific_account := "RECEITAS OPERACIONAIS"
          movement_type := "Receita"
          period_value := 100
          original := headingLine }) := by
  decide

/-- C8 (counterexample): for a zero-valued candidate already classified as
`Custo` -- despesa-like according to the claim -- the recovery step takes
the credit-side branch (only `movement_type.lower().startswith('d')`
selects the debit side), recovering 5 from `credito` instead of 10 from
`debito`. -/
theorem recovery_custo_credit_counterexample :
    (reconcileEntry "a1" "c1" "2024-05-31" contaCusto).map
      (fun e => (e.movement_type, e.period_value)) = some ("Custo", 5) ∧
    (5 : ℚ) ≠ 10 := by
  decide

/-- C9 (counterexample): a candidate with no account-name key survives the
reconciler and is persisted with `specific_account = ""`; no step drops
entries for lacking a non-empty `specific_account`. -/
theorem empty_account_persisted_counterexample :
    (reconcileEntry "a1" "c1" "2024-05-31" contaSemConta).map
      (fun e => e.specific_account) = some "" := by
  decide

/-- C3 (counterexample): a second submission for a period whose analysis
is already completed, with no overwrite requested (the function does not
even take such a flag), does NOT fail on the
`create_analysis_and_entries` path: the upsert on the
(client_id, reference_year, reference_month) key rewrites the existing
completed row and the old child entries are deleted and replaced by the
reprocessed list -- mutation with no duplicate-analysis error. -/
theorem createAnalysis_overwrite_counterexample :
    (createAnalysisAndEntriesUpsert "a1" "c1" "2024-05-31" analysisDataC3
        legacyStateCompleted).entries ≠ legacyStateCompleted.entries ∧
    (createAnalysisAndEntriesUpsert "a1" "c1" "2024-05-31" analysisDataC3
        legacyStateCompleted).analysis =
      some { status := "completed", total_receitas := some 40, total_despesas := some 0 } := by
  decide

/-- C3 (amended): duplicate handling depends on the code path. On the
AI-router path, when the analysis addressed by the request is already
`completed` and `force_process` is not set, `process_file` raises the
duplicate rejection before any statement executes and the rolled-back
state is returned unchanged. The legacy `create_analysis_and_entries`
path never rejects: for every prior state of the period key -- occupied
by a completed analysis or not -- the run upserts the row to `completed`
and replaces the child entries with the reprocessed list. -/
theorem duplicate_rejection_router_only (st : PFState) (produced : List PFEntry)
    (aid cid rdate : String) (d : AnalysisData) (prior : LegacyState)
    (h : st.analysis.status = "completed") :
    processFile false produced st = (st, some PFError.duplicateAnalysis) ∧
    (createAnalysisAndEntriesUpsert aid cid rdate d prior).entries =
      entriesToInsert aid cid rdate d.financial_entries ∧
    ((createAnalysisAndEntriesUpsert aid cid rdate d prior).analysis.map
      (fun r => r.status)) = some "completed" := by
  refine ⟨?_, rfl, ?_⟩
  · simp [processFile, h]
  · simp only [createAnalysisAndEntriesUpsert]
    cases prior.analysis <;> rfl

/-- Witness for `duplicate_rejection_router_only`: the router rejects a
second run against a completed analysis, while the legacy path replaces
the child entries of an occupied period. -/
theorem duplicate_rejection_router_only_witness :
    processFile false [pfEntry10] pfStateCompleted =
      (pfStateCompleted, some PFError.duplicateAnalysis) ∧
    (createAnalysisAndEntriesUpsert "a1" "c1" "2024-05-31" analysisDataC3
        legacyStateCompleted).entries =
      entriesToInsert "a1" "c1" "2024-05-31" analysisDataC3.financial_entries ∧
    ((createAnalysisAndEntriesUpsert "a1" "c1" "2024-05-31" analysisDataC3
        legacyStateCompleted).analysis.map (fun r => r.status)) = some "completed" :=
  duplicate_rejection_router_only pfStateCompleted [pfEntry10] "a1" "c1" "2024-05-31"
    analysisDataC3 legacyStateCompleted rfl

/-- C1 (amended): on the AI-router path, for an analysis that has no
pre-existing child entries, a successful `process_file` run stores
`total_receitas` and `total_despesas` equal to the sums of `period_value`
over its child entries with `movement_type` Receita resp. Despesa, and
marks the analysis `completed`. (The legacy `create_analysis_and_entries`
path instead stores parser-provided totals; see the counterexample.) -/
theorem processFile_totals_invariant (forceProcess : Bool) (produced : List PFEntry)
    (st : PFState) (hFresh : st.entries = [])
    (hNotDup : forceProcess = true ∨ st.analysis.status ≠ "completed")
    (hNonEmpty : produced ≠ []) :
    (processFile forceProcess produced st).2 = none ∧
    (processFile forceProcess produced st).1.analysis.status = "completed" ∧
    (processFile forceProcess produced st).1.analysis.total_receitas =
      sumPF "Receita" (processFile forceProcess produced st).1.entries ∧
    (processFile forceProcess produced st).1.analysis.total_despesas =
      sumPF "Despesa" (processFile forceProcess produced st).1.entries := by
  have hguard : ¬ (forceProcess = false ∧ st.analysis.status = "completed") := by
    rcases hNotDup with h | h
    · rw [h]; simp
    · exact fun hcon => h hcon.2
  have hne : produced.isEmpty = false := by
    cases produced with
    | nil => exact absurd rfl hNonEmpty
    | cons a l => rfl
  simp [processFile, hguard, hne, hFresh]

/-- Witness for `processFile_totals_invariant`: forced processing of one
Receita entry into a fresh analysis. -/
theorem processFile_totals_invariant_witness :
    (processFile true [pfEntry10] pfStateFresh).2 = none ∧
    (processFile true [pfEntry10] pfStateFresh).1.analysis.status = "completed" ∧
    (processFile true [pfEntry10] pfStateFresh).1.analysis.total_receitas =
      sumPF "Receita" (processFile true [pfEntry10] pfStateFresh).1.entries ∧
    (processFile true [pfEntry10] pfStateFresh).1.analysis.total_despesas =
      sumPF "Despesa" (processFile true [pfEntry10] pfStateFresh).1.entries :=
  processFile_totals_invariant true [pfEntry10] pfStateFresh rfl (Or.inl rfl) (by decide)

/-- C2 (amended): every candidate surviving the reconciler of
`create_analysis_and_entries` has a nonzero (not necessarily positive)
`period_value`; a candidate whose computed value is zero and whose recovery
is not strictly positive is dropped; and on the `BusinessRuleEngine` path
every surviving entry has a strictly positive `period_value`. -/
theorem reconciler_nonzero_invariant (aid cid rdate : String) (c : Conta) (cb : ContaBR) :
    (∀ e, reconcileEntry aid cid rdate c = some e → e.period_value ≠ 0) ∧
    (computePeriodValue c = 0 →
      recoverValue (mapMovementType (movementRaw c)) c.original_data ≤ 0 →
      reconcileEntry aid cid rdate c = none) ∧
    (∀ e, processSingleAccount cid rdate cb = some e → 0 < e.period_value) := by
  refine ⟨?_, ?_, ?_⟩
  · intro e he
    simp only [reconcileEntry] at he
    by_cases h0 : computePeriodValue c = 0
    · rw [if_pos h0] at he
      by_cases hr : 0 < recoverValue (mapMovementType (movementRaw c)) c.original_data
      · rw [if_pos hr] at he
        have h2 := Option.some.inj he
        subst h2
        exact ne_of_gt hr
      · rw [if_neg hr] at he
        exact Option.noConfusion he
    · rw [if_neg h0] at he
      have h2 := Option.some.inj he
      subst h2
      exact h0
  · intro h0 hr
    simp only [reconcileEntry]
    rw [if_pos h0, if_neg (not_lt.mpr hr)]
  · intro e he
    simp only [processSingleAccount] at he
    split at he
    · exact Option.noConfusion he
    · rename_i hP
      have h2 := Option.some.inj he
      subst h2
      exact lt_of_not_le hP

/-- Witness for `reconciler_nonzero_invariant`: the zero-debit/zero-credit
candidate of specification example 6 is dropped. -/
theorem reconciler_nonzero_invariant_witness :
    computePeriodValue contaZero = 0 ∧
    recoverValue (mapMovementType (movementRaw contaZero)) contaZero.original_data ≤ 0 ∧
    reconcileEntry "a1" "c1" "2024-05-31" contaZero = none :=
  ⟨by decide, by decide,
    (reconciler_nonzero_invariant "a1" "c1" "2024-05-31" contaZero contaBRZero).2.1
      (by decide) (by decide)⟩

/-- C6: for every matched ledger line whose account code starts with 4 or
5 and whose debit and credit tokens parse, `parse_balancete_for_db` emits
an entry with `period_value` equal to credit minus debit for codes starting
with 4 (Receitas) and debit minus credit for codes starting with 5
(Custos/Despesas); no positivity is required, so lines whose value comes
out non-positive are still emitted (the witness emits a line worth -50). -/
theorem parser_period_value_emission (currentSubgroup : Option String) (m : MatchedLine)
    (debitoVal creditoVal : ℚ)
    (hd : parseValue (some m.debito) = Except.ok debitoVal)
    (hc : parseValue (some m.credito) = Except.ok creditoVal)
    (h45 : primeiroDigito m.codigo = '4' ∨ primeiroDigito m.codigo = '5') :
    (emittedEntry (processMatchedLine currentSubgroup m)).map (fun e => e.period_value) =
      some (if primeiroDigito m.codigo = '4' then creditoVal - debitoVal
        else debitoVal - creditoVal) := by
  simp only [processMatchedLine]
  rw [if_pos h45]
  simp only [hd, hc, emittedEntry, Option.map]

/-- Witness for `parser_period_value_emission`: a revenue line with debit
100 and credit 50 is emitted with the negative `period_value` -50. -/
theorem parser_period_value_emission_witness :
    (emittedEntry (processMatchedLine (some "SG") leafNegLine)).map (fun e => e.period_value) =
      some (if primeiroDigito leafNegLine.codigo = '4' then (50 : ℚ) - 100 else 100 - 50) :=
  parser_period_value_emission (some "SG") leafNegLine 100 50 (by decide) (by decide) (by decide)

/-- C7 (amended): a matched line that is fully uppercase with a short code
(at most 5 characters) updates the tracked current-subgroup context to its
own description and carries `subgroup_1 = None` itself, but it is STILL
appended to `financial_entries` as an entry of its own (the claim's
"not emitted" part fails, see the counterexample). -/
theorem heading_updates_subgroup_still_emitted (currentSubgroup : Option String)
    (m : MatchedLine) (debitoVal creditoVal : ℚ)
    (hd : parseValue (some m.debito) = Except.ok debitoVal)
    (hc : parseValue (some m.credito) = Except.ok creditoVal)
    (h45 : primeiroDigito m.codigo = '4' ∨ primeiroDigito m.codigo = '5')
    (hup : pyIsUpper (pyStrip m.descricao) = true)
    (hshort : m.codigo.length ≤ 5) :
    subgroupAfter (processMatchedLine currentSubgroup m) = some (some (pyStrip m.descricao)) ∧
    (emittedEntry (processMatchedLine currentSubgroup m)).map
      (fun e => (e.subgroup_1, e.specific_account)) = some (none, pyStrip m.descricao) := by
  simp only [processMatchedLine]
  rw [if_pos h45]
  simp only [hd, hc]
  rw [if_pos ⟨hup, hshort⟩]
  simp [subgroupAfter, emittedEntry]

/-- Witness for `heading_updates_subgroup_still_emitted` at the concrete
heading line. -/
theorem heading_updates_subgroup_still_emitted_witness :
    subgroupAfter (processMatchedLine none headingLine) =
      some (some (pyStrip headingLine.descricao)) ∧
    (emittedEntry (processMatchedLine none headingLine)).map
      (fun e => (e.subgroup_1, e.specific_account)) =
      some (none, pyStrip headingLine.descricao) :=
  heading_updates_subgroup_still_emitted none headingLine 0 100
    (by decide) (by decide) (by decide) (by decide) (by decide)

/-- Every output of `_map_movement_type` is one of the four canonical
movement types. -/
theorem mapMovementType_mem (raw : Option String) :
    mapMovementType raw = "Receita" ∨ mapMovementType raw = "Custo" ∨
    mapMovementType raw = "Dedução" ∨ mapMovementType raw = "Despesa" := by
  rcases raw with _ | s
  · simp [mapMovementType]
  · simp only [mapMovementType]
    split
    · simp
    · split
      · simp
      · split
        · simp
        · split
          · simp
          · simp

/-- Recovery written from the amended claim: debit-side fields for
`Despesa` and `Dedução`, credit-side fields for the other movement types
(`Receita` and `Custo`), with `valor`/`saldo_atual`/`saldo` as the second
attempt when the chosen side is zero. -/
def recoverSpec (movementType : String) (o : OriginalData) : ℚ :=
  let debitSide := parseLocalizedNumber (orChain [o.debito, o.debts, o.debit])
  let creditSide := parseLocalizedNumber (orChain [o.credito, o.credit, o.credito_ou])
  let fallbackSide := parseLocalizedNumber (orChain [o.valor, o.saldo_atual, o.saldo])
  if movementType = "Despesa" ∨ movementType = "Dedução" then
    (if debitSide = 0 then fallbackSide else debitSide)
  else (if creditSide = 0 then fallbackSide else creditSide)

/-- On mapped movement types the code's recovery agrees with
`recoverSpec`: the `startswith('d')` test selects the debit side exactly
for `Despesa` and `Dedução`. -/
theorem recoverValue_eq_spec (raw : Option String) (o : OriginalData) :
    recoverValue (mapMovementType raw) (some o) = recoverSpec (mapMovementType raw) o := by
  rcases mapMovementType_mem raw with h | h | h | h <;> rw [h] <;> rfl

/-- C8 (amended): for a zero-valued candidate with an `original_data`
dictionary, the reconciler recovers exactly the `recoverSpec` value --
debit-side fields when the mapped movement type is `Despesa` or `Dedução`,
credit-side fields when it is `Receita` or `Custo` (not, as claimed, for
every despesa-like type) -- and the entry is kept with that value exactly
when it is strictly positive, dropped otherwise. -/
theorem recovery_side_selection (aid cid rdate : String) (c : Conta) (o : OriginalData)
    (hod : c.original_data = some o) (h0 : computePeriodValue c = 0) :
    (0 < recoverSpec (mapMovementType (movementRaw c)) o →
      (reconcileEntry aid cid rdate c).map (fun e => e.period_value) =
        some (recoverSpec (mapMovementType (movementRaw c)) o)) ∧
    (recoverSpec (mapMovementType (movementRaw c)) o ≤ 0 →
      reconcileEntry aid cid rdate c = none) := by
  have hrv : recoverValue (mapMovementType (movementRaw c)) c.original_data =
      recoverSpec (mapMovementType (movementRaw c)) o := by
    rw [hod]
    exact recoverValue_eq_spec (movementRaw c) o
  constructor
  · intro hpos
    simp only [reconcileEntry]
    rw [if_pos h0, hrv, if_pos hpos]
    rfl
  · intro hle
    simp only [reconcileEntry]
    rw [if_pos h0, hrv, if_neg (not_lt.mpr hle)]

/-- Witness for `recovery_side_selection`: a zero-valued `Despesa`
candidate recovers 7 from the debit-side field of its `original_data`. -/
theorem recovery_side_selection_witness :
    (reconcileEntry "a1" "c1" "2024-05-31" contaDespRec).map (fun e => e.period_value) =
      some (recoverSpec (mapMovementType (movementRaw contaDespRec))
        { debito := some (.str "7,00") }) :=
  (recovery_side_selection "a1" "c1" "2024-05-31" contaDespRec
      { debito := some (.str "7,00") } rfl (by decide)).1 (by decide)

/-- C9 (amended): the reconciler never filters on `specific_account`: any
candidate whose computed `period_value` is nonzero survives and is
persisted with `specific_account` equal to the resolved account string,
which defaults to the empty string when every account-name key is absent
(see the counterexample). -/
theorem reconciler_account_passthrough (aid cid rdate : String) (c : Conta)
    (h : computePeriodValue c ≠ 0) :
    (reconcileEntry aid cid rdate c).map (fun e => e.specific_account) =
      some (resolveSpecificAccount c) := by
  simp only [reconcileEntry]
  rw [if_neg h]
  rfl

/-- Witness for `reconciler_account_passthrough` at the candidate with no
account-name key. -/
theorem reconciler_account_passthrough_witness :
    (reconcileEntry "a1" "c1" "2024-05-31" contaSemConta).map (fun e => e.specific_account) =
      some (resolveSpecificAccount contaSemConta) :=
  reconciler_account_passthrough "a1" "c1" "2024-05-31" contaSemConta (by decide)

/-- C10: a missing movement-type string, and any string matching none of
the recognized receita/custo/dedução patterns (for `_map_movement_type`)
resp. none of the transformation variants and none of the receita keywords
(for the AI-service `_normalize_movement_type`), is classified `Despesa`
by both normalizers. -/
theorem movement_type_default_despesa (raw : Option String) (value : String)
    (transformations : List (String × List String))
    (hmap : ∀ s, raw = some s →
      containsStr (pyLower (pyStrip s)) "receit" = false ∧
      pyLower (pyStrip s) ≠ "r" ∧
      containsStr (pyLower (pyStrip s)) "custo" = false ∧
      containsStr (pyLower (pyStrip s)) "deduc" = false ∧
      containsStr (pyLower (pyStrip s)) "dedução" = false)
    (htrans : ∀ p ∈ transformations, ∀ v ∈ p.2,
      containsStr (pyStrip (pyLower value)) v = false)
    (hkey : ∀ w ∈ (["receita", "entrada", "credit", "recebimento"] : List String),
      containsStr (pyStrip (pyLower value)) w = false) :
    mapMovementType raw = "Despesa" ∧
    aiNormalizeMovementType value transformations = "Despesa" := by
  constructor
  · rcases raw with _ | s
    · rfl
    · obtain ⟨h1, h2, h3, h4, h5⟩ := hmap s rfl
      by_cases hs : s = ""
      · simp [mapMovementType, hs]
      · simp only [mapMovementType]
        rw [if_neg hs, if_neg (by simp [h1, h2]), if_neg (by simp [h3]),
          if_neg (by simp [h4, h5])]
  · simp only [aiNormalizeMovementType]
    have hfind : transformations.find?
        (fun p => p.2.any (fun v => containsStr (pyStrip (pyLower value)) v)) = none := by
      rw [List.find?_eq_none]
      intro p hp hcon
      simp only [List.any_eq_true] at hcon
      obtain ⟨v, hv, hcv⟩ := hcon
      rw [htrans p hp v hv] at hcv
      exact Bool.noConfusion hcv
    have hkw : ¬ (["receita", "entrada", "credit", "recebimento"].any
        (fun w => containsStr (pyStrip (pyLower value)) w)) = true := by
      intro hcon
      rw [List.any_eq_true] at hcon
      obtain ⟨w, hw, hcw⟩ := hcon
      rw [hkey w hw] at hcw
      exact Bool.noConfusion hcw
    rw [hfind, if_neg hkw]
    simp

/-- Witness for `movement_type_default_despesa` at an unrecognized
movement string. -/
theorem movement_type_default_despesa_witness :
    mapMovementType (some "transferencia bancaria") = "Despesa" ∧
    aiNormalizeMovementType "transferencia bancaria" [("receita", ["venda"])] = "Despesa" :=
  movement_type_default_despesa (some "transferencia bancaria") "transferencia bancaria"
    [("receita", ["venda"])]
    (fun s hs => by
      cases hs
      exact ⟨by decide, by decide, by decide, by decide, by decide⟩)
    (by decide) (by decide)

end Orion
